import Mathlib

/-!
Shallow embedding of the core logic of `src/api_server.js` (JiaoWoTong API
server): filename-based domain classification, the two fallback generators
(`generateFallbackStudyPlan`, `generateFallbackTestPaper`), the JSON
extraction step applied to model output, and the response-shaping logic of
the three request handlers.

Conventions of the embedding:
* JavaScript strings are Lean `String`s; `toLowerCase` is modelled by the
  ASCII lowering `jsToLower` (the substrings the code searches for are
  ASCII or CJK, on which the two agree).
* A request-supplied file object is a `JFile`; its `name` field is
  `Option String`, where `none` models a missing (or non-string) `name`
  property, on which `file.name.toLowerCase()` throws a TypeError.
* Functions that can throw are embedded in `Except`; `Except.error` marks a
  thrown exception.
* `JSON.parse` is an external builtin, so it is passed in as an explicit
  parameter `parse : String → Option JsonVal` (`none` models a parse
  error); the outcome of a `callDeepSeekAPI` invocation is likewise passed
  in as an `ApiOutcome` oracle value.
* JavaScript numeric literals appearing in the hardcoded papers are
  modelled as exact rationals.
-/

namespace JiaoWoTong

/-- Does the pattern occur at the head of the text (character lists)? -/
def matchAt : List Char → List Char → Bool
  | [], _ => true
  | _ :: _, [] => false
  | p :: ps, c :: cs => p == c && matchAt ps cs

/-- Index of the first occurrence of `pat` inside `s`, if any. -/
def findSub (pat : List Char) : List Char → Option Nat
  | [] => if matchAt pat [] then some 0 else none
  | c :: cs => if matchAt pat (c :: cs) then some 0 else (findSub pat cs).map (· + 1)

/-- Model of JavaScript `s.includes(pat)`: substring containment. -/
def strContains (s pat : String) : Bool :=
  (findSub pat.data s.data).isSome

/-- Model of JavaScript `toLowerCase` (ASCII lowering; identity on the CJK
characters the classifier searches for). -/
def jsToLower (s : String) : String :=
  String.mk (s.data.map Char.toLower)

/-- A file object taken from the request body.  `name = none` models an
object whose `name` property is absent or not a string (there
`file.name.toLowerCase()` throws). -/
structure JFile where
  name : Option String
  deriving DecidableEq

/-- The per-file predicate of the classifier, from
`file.name.toLowerCase().includes('math') || ... .includes('数学') || ...
.includes('代数') || ... .includes('几何')` (api_server.js:383-387 and
476-480), on a string-valued name. -/
def isMathName (nm : String) : Bool :=
  strContains (jsToLower nm) "math" || strContains (jsToLower nm) "数学" ||
    strContains (jsToLower nm) "代数" || strContains (jsToLower nm) "几何"

/-- Model of `files.some(file => file.name.toLowerCase().includes(...) ...)`:
`Array.prototype.some` stops at the first file whose predicate returns
`true`; evaluating the predicate on a file without a string `name` throws. -/
def someIsMath : List JFile → Except Unit Bool
  | [] => .ok false
  | f :: fs =>
    match f.name with
    | none => .error ()
    | some nm => if isMathName nm then .ok true else someIsMath fs

/-- Total version of the per-file classifier predicate (false on a missing
name), used to describe `someIsMath` on well-formed file lists. -/
def fileIsMath (f : JFile) : Bool :=
  match f.name with
  | some nm => isMathName nm
  | none => false

/-- A question of a test paper.  The `options` field is `Option` because the
essay question of the general-domain hardcoded paper (api_server.js:455-463)
has no `options` property at all; `none` models the absent field. -/
structure Question where
  id : Int
  type : String
  question : String
  options : Option (List String)
  correct_answer : String
  explanation : String
  difficulty : String
  knowledge_points : List String
  deriving DecidableEq

structure PaperAnalysis where
  total_questions : Int
  difficulty_distribution : List (String × Rat)
  knowledge_coverage : List String
  deriving DecidableEq

structure TestPaper where
  title : String
  questions : List Question
  analysis : PaperAnalysis
  deriving DecidableEq

/-- Question 1 of the hardcoded math paper (api_server.js:394-403). -/
def mathQ1 : Question :=
  { id := 1
    type := "single_choice"
    question := "若函数 f(x) = x² - 3x + 2，则 f(2) 的值为："
    options := some ["A. 0", "B. 1", "C. 2", "D. 3"]
    correct_answer := "A"
    explanation := "将 x=2 代入函数 f(x) = x² - 3x + 2，得 f(2) = 2² - 3×2 + 2 = 4 - 6 + 2 = 0。"
    difficulty := "简单"
    knowledge_points := ["函数求值", "代数运算"] }

/-- Question 2 of the hardcoded math paper (api_server.js:405-413). -/
def mathQ2 : Question :=
  { id := 2
    type := "multiple_choice"
    question := "以下哪些是二次函数的性质？"
    options := some ["A. 图像是抛物线", "B. 最高次数为2", "C. 一定有两个实根", "D. 关于对称轴对称"]
    correct_answer := "A, B, D"
    explanation := "二次函数的图像是抛物线，最高次数为2，关于对称轴对称，但不一定有两个实根（当判别式小于0时无实根）。"
    difficulty := "中等"
    knowledge_points := ["二次函数", "函数性质"] }

/-- Question 3 of the hardcoded math paper (api_server.js:415-423). -/
def mathQ3 : Question :=
  { id := 3
    type := "judgment"
    question := "π 是有理数。"
    options := some ["正确", "错误"]
    correct_answer := "错误"
    explanation := "π 是无理数，不能表示为两个整数的比值。"
    difficulty := "简单"
    knowledge_points := ["无理数", "实数分类"] }

/-- Question 1 of the hardcoded general paper (api_server.js:436-444). -/
def generalQ1 : Question :=
  { id := 1
    type := "single_choice"
    question := "以下关于计算机网络的说法，正确的是："
    options := some ["A. 计算机网络只能用于传递数据", "B. 计算机网络由硬件和软件组成",
      "C. 计算机网络不需要协议", "D. 计算机网络只能在局域网中使用"]
    correct_answer := "B"
    explanation := "计算机网络是由硬件设备和软件系统组成的，用于实现计算机之间的通信和资源共享。"
    difficulty := "简单"
    knowledge_points := ["计算机网络", "网络组成"] }

/-- Question 2 of the hardcoded general paper (api_server.js:446-454). -/
def generalQ2 : Question :=
  { id := 2
    type := "multiple_choice"
    question := "以下属于操作系统的是："
    options := some ["A. Windows", "B. Linux", "C. Office", "D. macOS"]
    correct_answer := "A, B, D"
    explanation := "Windows、Linux和macOS都是操作系统，而Office是办公软件。"
    difficulty := "简单"
    knowledge_points := ["操作系统", "软件分类"] }

/-- Question 3 of the hardcoded general paper (api_server.js:456-463); note
the source object literal has no `options` property. -/
def generalQ3 : Question :=
  { id := 3
    type := "essay"
    question := "请简述计算机病毒的特点和预防措施。"
    options := none
    correct_answer := "计算机病毒的特点包括：传染性、潜伏性、破坏性、隐蔽性等。预防措施包括：安装杀毒软件、定期更新系统、不随意打开陌生邮件附件、使用安全的网络环境等。"
    explanation := "本题主要考察对计算机病毒基本概念的理解和预防意识。"
    difficulty := "中等"
    knowledge_points := ["计算机安全", "病毒防护"] }

/-- The hardcoded math-domain fallback paper (api_server.js:391-430). -/
def mathFallbackPaper : TestPaper :=
  { title := "数学模拟测试卷（备用方案）"
    questions := [mathQ1, mathQ2, mathQ3]
    analysis :=
      { total_questions := 3
        difficulty_distribution := [("简单", (67 : ℚ) / 100), ("中等", (33 : ℚ) / 100), ("困难", 0)]
        knowledge_coverage := ["函数求值", "代数运算", "二次函数", "函数性质", "无理数", "实数分类"] } }

/-- The hardcoded general-domain fallback paper (api_server.js:432-471). -/
def generalFallbackPaper : TestPaper :=
  { title := "模拟测试卷（备用方案）"
    questions := [generalQ1, generalQ2, generalQ3]
    analysis :=
      { total_questions := 3
        difficulty_distribution := [("简单", (67 : ℚ) / 100), ("中等", (33 : ℚ) / 100), ("困难", 0)]
        knowledge_coverage := ["计算机网络", "网络组成", "操作系统", "软件分类", "计算机安全", "病毒防护"] } }

/-- The branch of `generateFallbackTestPaper` after the classifier has been
evaluated: `if (isMathContent) return {math paper} else return {general
paper}` (api_server.js:390-471). -/
def fallbackTestPaperCore (isMathContent : Bool) : TestPaper :=
  if isMathContent then mathFallbackPaper else generalFallbackPaper

/-- `generateFallbackTestPaper(files, targetScore, questionCount,
questionType)` (api_server.js:382-472).  The three trailing parameters are
received but never read by the source function.  The classifier may throw
(missing `name`). -/
def generateFallbackTestPaper (files : List JFile) (targetScore questionCount : Int)
    (questionType : String) : Except Unit TestPaper :=
  (someIsMath files).map fallbackTestPaperCore

structure ScheduleItem where
  time : String
  activity : String
  details : String
  deriving DecidableEq

structure DailyPlan where
  day : Int
  title : String
  objectives : List String
  schedule : List ScheduleItem
  key_points : List String
  difficulty : String
  deriving DecidableEq

structure StudyPlan where
  plan_title : String
  total_days : Int
  daily_plans : List DailyPlan
  deriving DecidableEq

/-- The object pushed for day `i` by the loop body of
`generateFallbackStudyPlan` (api_server.js:486-509). -/
def mkDailyPlan (subject : String) (reviewDays i : Int) : DailyPlan :=
  { day := i
    title := "第" ++ toString i ++ "天：" ++ subject ++
      (if i = 1 then "基础知识" else if i = reviewDays then "综合复习" else "重点内容") ++ "复习"
    objectives :=
      ["掌握" ++ subject ++
          (if i = 1 then "基础知识" else if i = reviewDays then "综合应用" else "核心概念"),
        "完成相关练习题目",
        "整理知识点笔记"]
    schedule :=
      [⟨"9:00-10:30", "知识点学习", "学习" ++ subject ++ "相关知识点，重点关注基本概念和原理"⟩,
        ⟨"10:45-12:00", "例题分析", "分析典型例题，理解解题思路"⟩,
        ⟨"14:00-15:30", "习题练习", "完成相关习题，巩固知识点"⟩,
        ⟨"15:45-17:00", "错题整理", "整理错题，分析错误原因"⟩,
        ⟨"19:00-20:30", "知识点回顾", "回顾当天学习内容，强化记忆"⟩]
    key_points :=
      [subject ++ (if i = 1 then "基础知识" else if i = reviewDays then "综合应用" else "核心概念"),
        "解题技巧和方法",
        "常见错误分析"]
    difficulty := if i = 1 then "简单" else if i = reviewDays then "困难" else "中等" }

/-- The part of `generateFallbackStudyPlan` after the classifier: the
`for (let i = 1; i <= reviewDays; i++)` loop and the returned object
(api_server.js:483-515).  For `reviewDays ≤ 0` the loop body never runs. -/
def fallbackStudyPlanCore (isMathContent : Bool) (reviewDays : Int) : StudyPlan :=
  let subject := if isMathContent then "数学" else "计算机基础"
  { plan_title := subject ++ "个性化复习计划"
    total_days := reviewDays
    daily_plans :=
      (List.range reviewDays.toNat).map
        (fun (k : Nat) => mkDailyPlan subject reviewDays ((k : Int) + 1)) }

/-- `generateFallbackStudyPlan(files, targetScore, reviewDays)`
(api_server.js:475-516).  `targetScore` is received but never read by the
source function.  The classifier may throw (missing `name`). -/
def generateFallbackStudyPlan (files : List JFile) (targetScore reviewDays : Int) :
    Except Unit StudyPlan :=
  (someIsMath files).map (fun m => fallbackStudyPlanCore m reviewDays)

/-- A JSON value, the possible result of the `JSON.parse` builtin. -/
inductive JsonVal where
  | null
  | bool (b : Bool)
  | num (lexeme : String)
  | str (s : String)
  | arr (elems : List JsonVal)
  | obj (fields : List (String × JsonVal))

/-- The opening delimiter of the fenced-block regular expression
/```json\n([\s\S]*?)\n```/ used at api_server.js:309 and 370. -/
def fenceOpen : List Char := "```json\n".data

/-- The closing delimiter of the fenced-block regular expression. -/
def fenceClose : List Char := "\n```".data

/-- Model of `response.match(/```json\n([\s\S]*?)\n```/)`: the match starts
at the leftmost occurrence of "```json\n"; the lazy group ends at the first
following "\n```".  Returns `(group 1, whole match)`, or `none` when the
regular expression does not match. -/
def fencedMatch (s : List Char) : Option (List Char × List Char) :=
  match findSub fenceOpen s with
  | none => none
  | some i =>
    let rest := (s.drop i).drop fenceOpen.length
    match findSub fenceClose rest with
    | none => none
    | some j =>
      some (rest.take j, (s.drop i).take (fenceOpen.length + j + fenceClose.length))

def lbrace : Char := Char.ofNat 123

def rbrace : Char := Char.ofNat 125

/-- Index of the last occurrence of `c` in the list, if any. -/
def lastIdxOf (c : Char) : List Char → Option Nat
  | [] => none
  | a :: as =>
    match lastIdxOf c as with
    | some j => some (j + 1)
    | none => if a == c then some 0 else none

/-- Model of `response.match(/\x7b[\s\S]*\x7d/)`: the match starts at the
leftmost opening brace that is followed by a closing brace, and the greedy
middle extends to the last closing brace of the whole string. -/
def braceMatch (s : List Char) : Option (List Char) :=
  match findSub [lbrace] s with
  | none => none
  | some i =>
    let rest := s.drop i
    match lastIdxOf rbrace rest with
    | none => none
    | some j => if 1 ≤ j then some (rest.take (j + 1)) else none

/-- Result of the JSON-extraction step applied to model output:
either a parsed JSON value, or the `{raw_response: response}` envelope
holding the original raw text. -/
inductive ExtractResult where
  | parsed (j : JsonVal)
  | envelope (raw : String)

/-- The JSON-extraction step shared by `generateStudyPlanWithDeepSeek`
(api_server.js:307-317) and `generateTestPaperWithDeepSeek`
(api_server.js:369-378):

    const jsonMatch = response.match(fenced) || response.match(braces);
    if (jsonMatch) return JSON.parse(jsonMatch[1] || jsonMatch[0]);
    return { raw_response: response };      // also on a parse exception

When a fenced block matched, `jsonMatch[1] || jsonMatch[0]` falls back to
the whole match when group 1 is the (falsy) empty string.  A parse failure
anywhere lands in the `catch`, which returns the envelope. -/
def extractStructured (parse : String → Option JsonVal) (response : String) : ExtractResult :=
  match fencedMatch response.data with
  | some (interior, full) =>
    match parse (String.mk (if interior.isEmpty then full else interior)) with
    | some j => .parsed j
    | none => .envelope response
  | none =>
    match braceMatch response.data with
    | some m =>
      match parse (String.mk m) with
      | some j => .parsed j
      | none => .envelope response
    | none => .envelope response

/-- True exactly when the extraction step cannot produce a parsed JSON
value: the attempted parse (as selected by the source's match chain) fails,
or nothing matched at all. -/
def extractAttemptFailed (parse : String → Option JsonVal) (response : String) : Bool :=
  match fencedMatch response.data with
  | some (interior, full) =>
    (parse (String.mk (if interior.isEmpty then full else interior))).isNone
  | none =>
    match braceMatch response.data with
    | some m => (parse (String.mk m)).isNone
    | none => true

/-- Outcome of a `callDeepSeekAPI` invocation, as seen by a caller: the
returned message content, or a thrown error (missing key, network failure,
non-success HTTP status). -/
inductive ApiOutcome where
  | ok (content : String)
  | err

/-- The `studyPlan` value placed in a study-plan response body: either what
`generateStudyPlanWithDeepSeek` produced from model output, or a fallback
plan. -/
inductive PlanPayload where
  | fromModel (r : ExtractResult)
  | fallback (p : StudyPlan)

/-- Body of a 200 response of `/api/generate-study-plan` (`success: true`
is implicit: every such body carries it). -/
structure PlanOk where
  studyPlan : PlanPayload
  warning : Option String

/-- Response of the `/api/generate-study-plan` handler. -/
inductive PlanResponse where
  | badRequest (error : String)
  | ok (body : PlanOk)

/-- The `/api/generate-study-plan` handler (api_server.js:121-158).
`files = none` models an absent/falsy `files` property of the JSON body.
The only modelled source of an exception inside the outer `try` is the
inner fallback call throwing on a file without a string name; the outer
`catch` then calls `generateFallbackStudyPlan([], 85, 7)`, which cannot
throw and is definitionally `fallbackStudyPlanCore false 7`. -/
def generateStudyPlanHandler (parse : String → Option JsonVal)
    (files : Option (List JFile)) (targetScore reviewDays : Int)
    (api : ApiOutcome) : PlanResponse :=
  match files with
  | none => .badRequest "没有文件内容"
  | some fs =>
    if fs.isEmpty then .badRequest "没有文件内容"
    else
      match api with
      | .ok content => .ok ⟨.fromModel (extractStructured parse content), none⟩
      | .err =>
        match generateFallbackStudyPlan fs targetScore reviewDays with
        | .ok p => .ok ⟨.fallback p, some "API调用失败，使用备用方案生成复习计划"⟩
        | .error _ =>
          .ok ⟨.fallback (fallbackStudyPlanCore false 7), some "生成失败，使用备用方案"⟩

/-- The `testPaper` value placed in a test-paper response body. -/
inductive PaperPayload where
  | fromModel (r : ExtractResult)
  | fallback (p : TestPaper)

/-- Body of a 200 response of `/api/generate-test-paper`. -/
structure PaperOk where
  testPaper : PaperPayload
  warning : Option String

/-- Response of the `/api/generate-test-paper` handler. -/
inductive PaperResponse where
  | badRequest (error : String)
  | ok (body : PaperOk)

/-- The `/api/generate-test-paper` handler (api_server.js:161-198), mirror
image of the study-plan handler; the outer `catch` calls
`generateFallbackTestPaper([], 85, 3, 'all')`, which cannot throw and is
definitionally `fallbackTestPaperCore false`. -/
def generateTestPaperHandler (parse : String → Option JsonVal)
    (files : Option (List JFile)) (targetScore questionCount : Int) (questionType : String)
    (api : ApiOutcome) : PaperResponse :=
  match files with
  | none => .badRequest "没有文件内容"
  | some fs =>
    if fs.isEmpty then .badRequest "没有文件内容"
    else
      match api with
      | .ok content => .ok ⟨.fromModel (extractStructured parse content), none⟩
      | .err =>
        match generateFallbackTestPaper fs targetScore questionCount questionType with
        | .ok p => .ok ⟨.fallback p, some "API调用失败，使用备用方案生成模拟卷"⟩
        | .error _ =>
          .ok ⟨.fallback (fallbackTestPaperCore false), some "生成失败，使用备用方案"⟩

/-- A file-content record as assembled by the upload loop of
`/api/analyze-files` (name, MIME type, truncated or error content). -/
structure FContent where
  name : String
  type : String
  content : String
  deriving DecidableEq

/-- One entry of the `analysis` array: file name plus analysis text. -/
structure FileSummary where
  name : String
  analysis : String
  deriving DecidableEq

/-- The sequential per-file loop of `analyzeFilesWithDeepSeek`
(api_server.js:232-260), with the outcome of the `i`-th `callDeepSeekAPI`
invocation supplied by the oracle `api` (an `Except.error` carries the
thrown error's message, `""` when falsy).  The first failing call aborts
the whole loop, discarding the summaries pushed so far. -/
def analyzeLoop (api : Nat → Except String String) :
    List FContent → Nat → Except String (List FileSummary)
  | [], _ => .ok []
  | f :: fs, i =>
    match api i with
    | .error e => .error e
    | .ok a =>
      match analyzeLoop api fs (i + 1) with
      | .error e => .error e
      | .ok rest => .ok (⟨f.name, a⟩ :: rest)

/-- `analyzeFilesWithDeepSeek(files)` (api_server.js:232-260). -/
def analyzeFilesWithDeepSeek (api : Nat → Except String String) (files : List FContent) :
    Except String (List FileSummary) :=
  analyzeLoop api files 0

/-- Body of a 200 response of `/api/analyze-files`. -/
structure AnalyzeOk where
  files : List (String × String)
  analysis : List FileSummary
  warning : Option String
  deriving DecidableEq

/-- Response of the `/api/analyze-files` handler. -/
inductive AnalyzeResponse where
  | badRequest (error : String)
  | ok (body : AnalyzeOk)
  deriving DecidableEq

/-- The `/api/analyze-files` handler (api_server.js:54-118), from the point
where `fileContents` has been assembled: 400 on an empty upload, else the
per-file analyses, and on an inference failure a synthesized
`文件分析失败: …` entry per file plus a warning.  (The outer 500 path only
catches failures of the boundary I/O, which is outside this model.) -/
def analyzeFilesHandler (api : Nat → Except String String) (files : List FContent) :
    AnalyzeResponse :=
  if files.isEmpty then .badRequest "未上传文件"
  else
    match analyzeFilesWithDeepSeek api files with
    | .ok analysis => .ok ⟨files.map (fun f => (f.name, f.type)), analysis, none⟩
    | .error m =>
      .ok ⟨files.map (fun f => (f.name, f.type)),
        files.map (fun f => ⟨f.name, "文件分析失败: " ++ (if m.isEmpty then "API调用错误" else m)⟩),
        some "文件分析失败，使用备用方案生成模拟卷"⟩

/-- A `JSON.parse` stand-in that fails on every input, usable wherever the
parsed value is irrelevant. -/
def parseNone : String → Option JsonVal := fun _ => none

/-- A `JSON.parse` stand-in recognising the single document
`\x7b"ok":true\x7d`, used to instantiate parse-dependent theorems. -/
def parseStub : String → Option JsonVal := fun s =>
  if s = "\x7b\"ok\":true\x7d" then some (JsonVal.obj [("ok", JsonVal.bool true)]) else none

/-- Is a study-plan payload fallback-generated content? -/
def planPayloadIsFallback : PlanPayload → Bool
  | .fallback _ => true
  | .fromModel _ => false

/-- Is a test-paper payload fallback-generated content? -/
def paperPayloadIsFallback : PaperPayload → Bool
  | .fallback _ => true
  | .fromModel _ => false

/-- On a list in which every file has a string name, the short-circuiting
classifier returns normally and agrees with `List.any fileIsMath`. -/
lemma someIsMath_eq_any : ∀ (files : List JFile),
    (∀ f ∈ files, f.name.isSome = true) →
    someIsMath files = Except.ok (files.any fileIsMath)
  | [], _ => rfl
  | f :: fs, h => by
    rcases hn : f.name with _ | nm
    · have := h f (List.mem_cons_self _ _)
      rw [hn] at this
      simp at this
    · by_cases hm : isMathName nm
      · simp [someIsMath, hn, hm, fileIsMath, List.any_cons]
      · have ih := someIsMath_eq_any fs (fun g hg => h g (List.mem_cons_of_mem _ hg))
        simp [someIsMath, hn, hm, fileIsMath, List.any_cons, ih]

/-- C2: for any integer `reviewDays = n ≥ 1` and any file list (of files
with string names), `generateFallbackStudyPlan` returns a plan with exactly
`n` daily plans, days numbered 1..n in order, day 1 difficulty "简单",
day `n` difficulty "困难" when `n > 1`, every other day "中等", and
`total_days = n`. -/
theorem fallback_plan_days_c2 (files : List JFile) (targetScore n : Int)
    (hnames : ∀ f ∈ files, f.name.isSome = true) (hn : 1 ≤ n) :
    ∃ p, generateFallbackStudyPlan files targetScore n = Except.ok p ∧
      p.total_days = n ∧
      p.daily_plans.length = n.toNat ∧
      p.daily_plans.map DailyPlan.day = (List.range n.toNat).map (fun (k : Nat) => (k : Int) + 1) ∧
      ∀ d ∈ p.daily_plans,
        d.difficulty = if d.day = 1 then "简单" else if d.day = n then "困难" else "中等" := by
  refine ⟨fallbackStudyPlanCore (files.any fileIsMath) n, ?_, rfl, ?_, ?_, ?_⟩
  · rw [generateFallbackStudyPlan, someIsMath_eq_any files hnames]
    rfl
  · simp only [fallbackStudyPlanCore]
    rw [List.length_map, List.length_range]
  · simp [fallbackStudyPlanCore, List.map_map, Function.comp, mkDailyPlan]
  · intro d hd
    simp only [fallbackStudyPlanCore, List.mem_map, List.mem_range] at hd
    obtain ⟨k, _, rfl⟩ := hd
    simp [mkDailyPlan]

/-- Closed instance of `fallback_plan_days_c2` at the empty file list and
`n = 2`. -/
theorem fallback_plan_days_c2_witness :
    ∃ p, generateFallbackStudyPlan [] 85 2 = Except.ok p ∧
      p.total_days = 2 ∧
      p.daily_plans.length = (2 : Int).toNat ∧
      p.daily_plans.map DailyPlan.day = (List.range (2 : Int).toNat).map (fun (k : Nat) => (k : Int) + 1) ∧
      ∀ d ∈ p.daily_plans,
        d.difficulty = if d.day = 1 then "简单" else if d.day = 2 then "困难" else "中等" :=
  fallback_plan_days_c2 [] 85 2 (by simp) (by decide)

/-- C10: for `reviewDays = n ≤ 0` the loop body never runs, so the returned
plan has an empty `daily_plans` but `total_days` still equals `n`; for
negative `n` the invariant `total_days = daily_plans.length` fails. -/
theorem fallback_plan_nonpos_c10 (files : List JFile) (targetScore n : Int)
    (hnames : ∀ f ∈ files, f.name.isSome = true) (hn : n ≤ 0) :
    ∃ p, generateFallbackStudyPlan files targetScore n = Except.ok p ∧
      p.daily_plans = [] ∧
      p.total_days = n ∧
      (n < 0 → p.total_days ≠ (p.daily_plans.length : Int)) := by
  refine ⟨fallbackStudyPlanCore (files.any fileIsMath) n, ?_, ?_, rfl, ?_⟩
  · rw [generateFallbackStudyPlan, someIsMath_eq_any files hnames]
    rfl
  · have hz : n.toNat = 0 := Int.toNat_of_nonpos hn
    simp [fallbackStudyPlanCore, hz]
  · intro hneg
    have hz : n.toNat = 0 := Int.toNat_of_nonpos hn
    simp [fallbackStudyPlanCore, hz]
    omega

/-- Closed instance of `fallback_plan_nonpos_c10` at `n = -3`. -/
theorem fallback_plan_nonpos_c10_witness :
    ∃ p, generateFallbackStudyPlan [] 85 (-3) = Except.ok p ∧
      p.daily_plans = [] ∧
      p.total_days = -3 ∧
      ((-3 : Int) < 0 → p.total_days ≠ (p.daily_plans.length : Int)) :=
  fallback_plan_nonpos_c10 [] 85 (-3) (by simp) (by decide)

/-- C3: on any file list of files with string names,
`generateFallbackTestPaper` returns one of the two hardcoded papers, always
with exactly 3 questions, with difficulty-distribution fractions summing to
1, and its output does not depend on `targetScore`, `questionCount` or
`questionType`. -/
theorem fallback_paper_c3 (files : List JFile) (targetScore questionCount : Int)
    (questionType : String) (hnames : ∀ f ∈ files, f.name.isSome = true) :
    ∃ p, generateFallbackTestPaper files targetScore questionCount questionType = Except.ok p ∧
      p.questions.length = 3 ∧
      (p = mathFallbackPaper ∨ p = generalFallbackPaper) ∧
      (p.analysis.difficulty_distribution.map Prod.snd).sum = (1 : ℚ) ∧
      ∀ ts qc qt, generateFallbackTestPaper files ts qc qt =
        generateFallbackTestPaper files targetScore questionCount questionType := by
  refine ⟨fallbackTestPaperCore (files.any fileIsMath), ?_, ?_, ?_, ?_, fun _ _ _ => rfl⟩
  · rw [generateFallbackTestPaper, someIsMath_eq_any files hnames]
    rfl
  · cases files.any fileIsMath <;> decide
  · cases files.any fileIsMath
    · exact Or.inr rfl
    · exact Or.inl rfl
  · cases files.any fileIsMath <;> norm_num [fallbackTestPaperCore, mathFallbackPaper,
      generalFallbackPaper]

/-- Closed instance of `fallback_paper_c3` at a one-file list. -/
theorem fallback_paper_c3_witness :
    ∃ p, generateFallbackTestPaper [⟨some "Math_Notes.pdf"⟩] 85 10 "essay" = Except.ok p ∧
      p.questions.length = 3 ∧
      (p = mathFallbackPaper ∨ p = generalFallbackPaper) ∧
      (p.analysis.difficulty_distribution.map Prod.snd).sum = (1 : ℚ) ∧
      ∀ ts qc qt, generateFallbackTestPaper [⟨some "Math_Notes.pdf"⟩] ts qc qt =
        generateFallbackTestPaper [⟨some "Math_Notes.pdf"⟩] 85 10 "essay" :=
  fallback_paper_c3 [⟨some "Math_Notes.pdf"⟩] 85 10 "essay" (by simp)

/-- Counterexample to C6 as stated: on a file whose `name` property is
missing (or not a string) both fallback generators throw a TypeError
instead of returning normally. -/
theorem fallback_not_total_c6_counterexample :
    generateFallbackStudyPlan [⟨none⟩] 85 7 = Except.error () ∧
    generateFallbackTestPaper [⟨none⟩] 85 3 "all" = Except.error () :=
  ⟨rfl, rfl⟩

/-- C6 amended: on any file list in which every file's `name` is a string,
both fallback generators return normally.  (They also never invoke the
External Inference Client: their embeddings take no inference oracle at
all, the source functions being straight-line code with no `await` and no
reference to `callDeepSeekAPI`.) -/
theorem fallback_total_c6_amended (files : List JFile) (targetScore reviewDays questionCount : Int)
    (questionType : String) (hnames : ∀ f ∈ files, f.name.isSome = true) :
    (∃ p, generateFallbackStudyPlan files targetScore reviewDays = Except.ok p) ∧
    (∃ q, generateFallbackTestPaper files targetScore questionCount questionType =
      Except.ok q) := by
  have h := someIsMath_eq_any files hnames
  constructor
  · exact ⟨_, by rw [generateFallbackStudyPlan, h]; rfl⟩
  · exact ⟨_, by rw [generateFallbackTestPaper, h]; rfl⟩

/-- Closed instance of `fallback_total_c6_amended`. -/
theorem fallback_total_c6_amended_witness :
    (∃ p, generateFallbackStudyPlan [⟨some "几何讲义.docx"⟩] 85 7 = Except.ok p) ∧
    (∃ q, generateFallbackTestPaper [⟨some "几何讲义.docx"⟩] 85 3 "all" = Except.ok q) :=
  fallback_total_c6_amended [⟨some "几何讲义.docx"⟩] 85 7 3 "all" (by simp)

/-- The spec-side selection condition of C4: some file's name contains,
case-insensitively, one of the four keyword substrings. -/
def specSelectsMath (files : List JFile) : Prop :=
  ∃ f ∈ files, ∃ nm, f.name = some nm ∧
    ∃ k ∈ (["math", "数学", "代数", "几何"] : List String), strContains (jsToLower nm) k = true

/-- The per-file code predicate agrees with the spec formulation. -/
lemma fileIsMath_iff (f : JFile) :
    fileIsMath f = true ↔
      ∃ nm, f.name = some nm ∧
        ∃ k ∈ (["math", "数学", "代数", "几何"] : List String),
          strContains (jsToLower nm) k = true := by
  rcases hn : f.name with _ | nm
  · simp [fileIsMath, hn]
  · simp only [fileIsMath, hn, isMathName, Bool.or_eq_true, Option.some.injEq]
    constructor
    · rintro (((h | h) | h) | h)
      · exact ⟨nm, rfl, "math", by simp, h⟩
      · exact ⟨nm, rfl, "数学", by simp, h⟩
      · exact ⟨nm, rfl, "代数", by simp, h⟩
      · exact ⟨nm, rfl, "几何", by simp, h⟩
    · rintro ⟨nm', rfl, k, hk, h⟩
      simp only [List.mem_cons, List.not_mem_nil, or_false] at hk
      rcases hk with rfl | rfl | rfl | rfl
      · exact Or.inl (Or.inl (Or.inl h))
      · exact Or.inl (Or.inl (Or.inr h))
      · exact Or.inl (Or.inr h)
      · exact Or.inr h

/-- C4: on a file list of files with string names, the fallback generators
produce the math-domain paper/plan exactly when some file name contains
(case-insensitively) one of "math", "数学", "代数", "几何", and the
general-domain paper/plan otherwise; the two domains' outputs are
distinguishable by title. -/
theorem fallback_domain_classification_c4 (files : List JFile)
    (targetScore reviewDays questionCount : Int) (questionType : String)
    (hnames : ∀ f ∈ files, f.name.isSome = true) :
    (specSelectsMath files →
      generateFallbackTestPaper files targetScore questionCount questionType =
        Except.ok mathFallbackPaper ∧
      generateFallbackStudyPlan files targetScore reviewDays =
        Except.ok (fallbackStudyPlanCore true reviewDays)) ∧
    (¬ specSelectsMath files →
      generateFallbackTestPaper files targetScore questionCount questionType =
        Except.ok generalFallbackPaper ∧
      generateFallbackStudyPlan files targetScore reviewDays =
        Except.ok (fallbackStudyPlanCore false reviewDays)) ∧
    mathFallbackPaper.title ≠ generalFallbackPaper.title ∧
    (fallbackStudyPlanCore true reviewDays).plan_title ≠
      (fallbackStudyPlanCore false reviewDays).plan_title := by
  have hany : someIsMath files = Except.ok (files.any fileIsMath) :=
    someIsMath_eq_any files hnames
  have hiff : files.any fileIsMath = true ↔ specSelectsMath files := by
    rw [List.any_eq_true]
    unfold specSelectsMath
    constructor
    · rintro ⟨f, hf, h⟩
      exact ⟨f, hf, (fileIsMath_iff f).mp h⟩
    · rintro ⟨f, hf, h⟩
      exact ⟨f, hf, (fileIsMath_iff f).mpr h⟩
  have htitle : (fallbackStudyPlanCore true reviewDays).plan_title ≠
      (fallbackStudyPlanCore false reviewDays).plan_title := by
    show ("数学个性化复习计划" : String) ≠ "计算机基础个性化复习计划"
    decide
  refine ⟨?_, ?_, by decide, htitle⟩
  · intro hs
    have ht : files.any fileIsMath = true := hiff.mpr hs
    rw [generateFallbackTestPaper, generateFallbackStudyPlan, hany, ht]
    exact ⟨rfl, rfl⟩
  · intro hs
    have ht : files.any fileIsMath = false := by
      rcases h : files.any fileIsMath with _ | _
      · rfl
      · exact absurd (hiff.mp h) hs
    rw [generateFallbackTestPaper, generateFallbackStudyPlan, hany, ht]
    exact ⟨rfl, rfl⟩

/-- Closed instance of `fallback_domain_classification_c4`: a list whose
single file is named "线性代数.pdf" selects the math domain. -/
theorem fallback_domain_classification_c4_witness :
    generateFallbackTestPaper [⟨some "线性代数.pdf"⟩] 85 3 "all" = Except.ok mathFallbackPaper ∧
    generateFallbackStudyPlan [⟨some "线性代数.pdf"⟩] 85 7 =
      Except.ok (fallbackStudyPlanCore true 7) :=
  (fallback_domain_classification_c4 [⟨some "线性代数.pdf"⟩] 85 7 3 "all" (by simp)).1
    ⟨⟨some "线性代数.pdf"⟩, by simp, "线性代数.pdf", rfl, "代数", by simp, by decide⟩

/-- Counterexample to C9 as stated: the essay question of the general-domain
fallback paper — a question the system produces — has no `options` field at
all (modelled as `none`), rather than an empty list of strings. -/
theorem paper_options_c9_counterexample :
    generateFallbackTestPaper [] 85 3 "all" = Except.ok generalFallbackPaper ∧
    generalQ3 ∈ generalFallbackPaper.questions ∧
    generalQ3.type = "essay" ∧
    generalQ3.options = none ∧
    generalQ3.options ≠ some [] :=
  ⟨rfl, by decide, rfl, rfl, by decide⟩

/-- C9 amended: in every paper the fallback generator produces, each
non-essay question carries an `options` field that is a list of strings,
while the (sole) essay question has no `options` field at all (`none`, not
an empty list). -/
theorem paper_options_c9_amended (files : List JFile) (targetScore questionCount : Int)
    (questionType : String) (p : TestPaper)
    (hp : generateFallbackTestPaper files targetScore questionCount questionType =
      Except.ok p) :
    ∀ q ∈ p.questions,
      (q.type ≠ "essay" → ∃ opts, q.options = some opts) ∧
      (q.type = "essay" → q.options = none) := by
  have hcore : ∃ b, p = fallbackTestPaperCore b := by
    rw [generateFallbackTestPaper] at hp
    rcases hm : someIsMath files with _ | b
    · rw [hm] at hp
      simp [Except.map] at hp
    · rw [hm] at hp
      simp only [Except.map, Except.ok.injEq] at hp
      exact ⟨b, hp.symm⟩
  obtain ⟨b, rfl⟩ := hcore
  intro q hq
  cases b <;>
    simp only [fallbackTestPaperCore, if_true, if_false, Bool.false_eq_true,
      mathFallbackPaper, generalFallbackPaper, List.mem_cons, List.not_mem_nil,
      or_false] at hq
  · rcases hq with rfl | rfl | rfl
    · exact ⟨fun _ => ⟨_, rfl⟩, fun h => by simp [generalQ1] at h⟩
    · exact ⟨fun _ => ⟨_, rfl⟩, fun h => by simp [generalQ2] at h⟩
    · exact ⟨fun h => absurd rfl h, fun _ => rfl⟩
  · rcases hq with rfl | rfl | rfl
    · exact ⟨fun _ => ⟨_, rfl⟩, fun h => by simp [mathQ1] at h⟩
    · exact ⟨fun _ => ⟨_, rfl⟩, fun h => by simp [mathQ2] at h⟩
    · exact ⟨fun _ => ⟨_, rfl⟩, fun h => by simp [mathQ3] at h⟩

/-- Closed instance of `paper_options_c9_amended` at the general paper's
essay question. -/
theorem paper_options_c9_amended_witness :
    (generalQ3.type ≠ "essay" → ∃ opts, generalQ3.options = some opts) ∧
    (generalQ3.type = "essay" → generalQ3.options = none) :=
  paper_options_c9_amended [] 85 3 "all" generalFallbackPaper rfl generalQ3 (by decide)

/-- C5: for every `JSON.parse` behaviour (with the sanity property that the
empty string is not valid JSON) and every raw model-output string, the
extraction step (1) always returns either a parsed value or the envelope
around the original raw text — it never throws; (2) returns the value
parsed from the interior of a fenced JSON block when one matches and its
interior is valid JSON; (3) otherwise returns the value parsed from the
greedy brace-delimited match when that is valid JSON; (4) returns the
envelope around the original text when no attempted parse yields valid
JSON. -/
theorem extract_structured_c5 (parse : String → Option JsonVal)
    (hparse : parse "" = none) (response : String) :
    ((∃ j, extractStructured parse response = ExtractResult.parsed j) ∨
      extractStructured parse response = ExtractResult.envelope response) ∧
    (∀ interior full j, fencedMatch response.data = some (interior, full) →
      parse (String.mk interior) = some j →
      extractStructured parse response = ExtractResult.parsed j) ∧
    (∀ m j, fencedMatch response.data = none → braceMatch response.data = some m →
      parse (String.mk m) = some j →
      extractStructured parse response = ExtractResult.parsed j) ∧
    (extractAttemptFailed parse response = true →
      extractStructured parse response = ExtractResult.envelope response) := by
  refine ⟨?_, ?_, ?_, ?_⟩
  · rcases hf : fencedMatch response.data with _ | ⟨interior, full⟩
    · rcases hb : braceMatch response.data with _ | m
      · exact Or.inr (by simp [extractStructured, hf, hb])
      · rcases hj : parse (String.mk m) with _ | j
        · exact Or.inr (by simp [extractStructured, hf, hb, hj])
        · exact Or.inl ⟨j, by simp [extractStructured, hf, hb, hj]⟩
    · rcases hj : parse (String.mk (if interior.isEmpty then full else interior)) with _ | j
      · exact Or.inr (by simp only [extractStructured, hf, hj])
      · exact Or.inl ⟨j, by simp only [extractStructured, hf, hj]⟩
  · intro interior full j hf hj
    rcases he : interior.isEmpty with _ | _
    · simp only [extractStructured, hf, he, Bool.false_eq_true, if_false, hj]
    · rw [List.isEmpty_iff] at he
      subst he
      rw [show String.mk ([] : List Char) = "" from rfl, hparse] at hj
      cases hj
  · intro m j hf hb hj
    simp [extractStructured, hf, hb, hj]
  · intro hfail
    rcases hf : fencedMatch response.data with _ | ⟨interior, full⟩
    · rcases hb : braceMatch response.data with _ | m
      · simp [extractStructured, hf, hb]
      · rcases hj : parse (String.mk m) with _ | j
        · simp only [extractStructured, hf, hb, hj]
        · simp only [extractAttemptFailed, hf, hb, hj, Option.isNone_some] at hfail
          exact Bool.noConfusion hfail
    · rcases hj : parse (String.mk (if interior.isEmpty then full else interior)) with _ | j
      · simp only [extractStructured, hf, hj]
      · simp only [extractAttemptFailed, hf, hj, Option.isNone_some] at hfail
        exact Bool.noConfusion hfail

/-- Closed instance of `extract_structured_c5`: a fenced JSON block inside
prose is found and its interior handed to the parser. -/
theorem extract_structured_c5_witness :
    extractStructured parseStub "回答如下：```json\n\x7b\"ok\":true\x7d\n```谢谢" =
      ExtractResult.parsed (JsonVal.obj [("ok", JsonVal.bool true)]) :=
  (extract_structured_c5 parseStub rfl "回答如下：```json\n\x7b\"ok\":true\x7d\n```谢谢").2.1
    ("\x7b\"ok\":true\x7d".data) ("```json\n\x7b\"ok\":true\x7d\n```".data)
    (JsonVal.obj [("ok", JsonVal.bool true)]) (by decide) rfl

/-- Every successful run of the analysis loop yields one summary per file,
named like the files and in their order. -/
lemma analyzeLoop_ok_names (api : Nat → Except String String) :
    ∀ (files : List FContent) (i : Nat) (l : List FileSummary),
      analyzeLoop api files i = Except.ok l →
      l.map FileSummary.name = files.map FContent.name
  | [], _, l, h => by
    rw [analyzeLoop] at h
    cases h
    rfl
  | f :: fs, i, l, h => by
    rw [analyzeLoop] at h
    rcases ha : api i with e | a <;> rw [ha] at h
    · cases h
    · rcases hr : analyzeLoop api fs (i + 1) with e | rest <;> rw [hr] at h
      · cases h
      · cases h
        have ih := analyzeLoop_ok_names api fs (i + 1) rest hr
        simp [ih]

/-- C8: for every non-empty extracted-file list and every behaviour of the
external inference calls, the analyze-files handler returns a 200 body
whose `analysis` has exactly one entry per input file, named like the
inputs and in their order; when the inference loop succeeds the entries are
its summaries and no warning is set, and when it fails every entry is the
synthesized `文件分析失败: …` string and the warning is set. -/
theorem analyze_files_shape_c8 (api : Nat → Except String String)
    (files : List FContent) (hne : files ≠ []) :
    ∃ b, analyzeFilesHandler api files = AnalyzeResponse.ok b ∧
      b.analysis.length = files.length ∧
      b.analysis.map FileSummary.name = files.map FContent.name ∧
      (∀ l, analyzeFilesWithDeepSeek api files = Except.ok l →
        b.analysis = l ∧ b.warning = none) ∧
      (∀ m, analyzeFilesWithDeepSeek api files = Except.error m →
        b.warning = some "文件分析失败，使用备用方案生成模拟卷" ∧
        b.analysis = files.map
          (fun f => ⟨f.name, "文件分析失败: " ++ (if m.isEmpty then "API调用错误" else m)⟩)) := by
  have hempty : files.isEmpty = false := by
    cases files
    · exact absurd rfl hne
    · rfl
  rcases h : analyzeFilesWithDeepSeek api files with m | l
  · refine ⟨⟨files.map (fun f => (f.name, f.type)),
      files.map (fun f => ⟨f.name, "文件分析失败: " ++ (if m.isEmpty then "API调用错误" else m)⟩),
      some "文件分析失败，使用备用方案生成模拟卷"⟩, ?_, ?_, ?_, ?_, ?_⟩
    · rw [analyzeFilesHandler, hempty, h]
      rfl
    · simp
    · simp
    · intro l hl
      cases hl
    · intro m' hm'
      injection hm' with hmm
      subst hmm
      exact ⟨rfl, rfl⟩
  · have hnames := analyzeLoop_ok_names api files 0 l h
    refine ⟨⟨files.map (fun f => (f.name, f.type)), l, none⟩, ?_, ?_, hnames, ?_, ?_⟩
    · rw [analyzeFilesHandler, hempty, h]
      rfl
    · have := congrArg List.length hnames
      simpa using this
    · intro l' hl'
      injection hl' with hll
      subst hll
      exact ⟨rfl, rfl⟩
    · intro m' hm'
      cases hm'

/-- Closed instance of `analyze_files_shape_c8` at a one-file list with a
failing inference call. -/
theorem analyze_files_shape_c8_witness :
    ∃ b, analyzeFilesHandler (fun _ => Except.error "boom")
        [⟨"a.txt", "text/plain", "hi"⟩] = AnalyzeResponse.ok b ∧
      b.analysis.length = ([⟨"a.txt", "text/plain", "hi"⟩] : List FContent).length ∧
      b.analysis.map FileSummary.name =
        [(⟨"a.txt", "text/plain", "hi"⟩ : FContent)].map FContent.name ∧
      (∀ l, analyzeFilesWithDeepSeek (fun _ => Except.error "boom")
          [⟨"a.txt", "text/plain", "hi"⟩] = Except.ok l → b.analysis = l ∧ b.warning = none) ∧
      (∀ m, analyzeFilesWithDeepSeek (fun _ => Except.error "boom")
          [⟨"a.txt", "text/plain", "hi"⟩] = Except.error m →
        b.warning = some "文件分析失败，使用备用方案生成模拟卷" ∧
        b.analysis = [(⟨"a.txt", "text/plain", "hi"⟩ : FContent)].map
          (fun f => ⟨f.name, "文件分析失败: " ++ (if m.isEmpty then "API调用错误" else m)⟩)) :=
  analyze_files_shape_c8 (fun _ => Except.error "boom") [⟨"a.txt", "text/plain", "hi"⟩]
    (by decide)

/-- Unfolding of the study-plan handler on a present, non-empty file list. -/
lemma plan_handler_unfold (parse : String → Option JsonVal) (fs : List JFile)
    (targetScore reviewDays : Int) (api : ApiOutcome) (hfs : fs.isEmpty = false) :
    generateStudyPlanHandler parse (some fs) targetScore reviewDays api =
      match api with
      | .ok content => .ok ⟨.fromModel (extractStructured parse content), none⟩
      | .err =>
        match generateFallbackStudyPlan fs targetScore reviewDays with
        | .ok p => .ok ⟨.fallback p, some "API调用失败，使用备用方案生成复习计划"⟩
        | .error _ =>
          .ok ⟨.fallback (fallbackStudyPlanCore false 7), some "生成失败，使用备用方案"⟩ := by
  simp only [generateStudyPlanHandler, hfs, Bool.false_eq_true, if_false]

/-- Unfolding of the test-paper handler on a present, non-empty file list. -/
lemma paper_handler_unfold (parse : String → Option JsonVal) (fs : List JFile)
    (targetScore questionCount : Int) (questionType : String) (api : ApiOutcome)
    (hfs : fs.isEmpty = false) :
    generateTestPaperHandler parse (some fs) targetScore questionCount questionType api =
      match api with
      | .ok content => .ok ⟨.fromModel (extractStructured parse content), none⟩
      | .err =>
        match generateFallbackTestPaper fs targetScore questionCount questionType with
        | .ok p => .ok ⟨.fallback p, some "API调用失败，使用备用方案生成模拟卷"⟩
        | .error _ =>
          .ok ⟨.fallback (fallbackTestPaperCore false), some "生成失败，使用备用方案"⟩ := by
  simp only [generateTestPaperHandler, hfs, Bool.false_eq_true, if_false]

/-- Counterexample to C7 as stated: when the inference call *succeeds* but
its output "hello" is unusable (no JSON can be extracted from it, for any
parser), both handlers deliver the raw-text envelope produced by the
response-interpretation step — not content synthesized by the Fallback
Generator. -/
theorem handlers_envelope_c7_counterexample :
    extractAttemptFailed parseNone "hello" = true ∧
    generateStudyPlanHandler parseNone (some [⟨some "notes.txt"⟩]) 85 7 (ApiOutcome.ok "hello") =
      PlanResponse.ok ⟨PlanPayload.fromModel (ExtractResult.envelope "hello"), none⟩ ∧
    planPayloadIsFallback (PlanPayload.fromModel (ExtractResult.envelope "hello")) = false ∧
    generateTestPaperHandler parseNone (some [⟨some "notes.txt"⟩]) 85 3 "all"
        (ApiOutcome.ok "hello") =
      PaperResponse.ok ⟨PaperPayload.fromModel (ExtractResult.envelope "hello"), none⟩ ∧
    paperPayloadIsFallback (PaperPayload.fromModel (ExtractResult.envelope "hello")) = false :=
  ⟨rfl, rfl, rfl, rfl, rfl⟩

/-- C7 amended: when the External Inference Client call *fails* (throws),
both handlers deliver fallback-generated content with a warning; when the
call succeeds, the delivered payload is whatever the response-interpretation
step made of the output (a parsed value, or the raw-text envelope when the
output is unusable) with no warning — never fallback content. -/
theorem handlers_fallback_policy_c7_amended (parse : String → Option JsonVal)
    (fs : List JFile) (targetScore reviewDays questionCount : Int) (questionType s : String)
    (hfs : fs ≠ []) :
    (∃ p w, generateStudyPlanHandler parse (some fs) targetScore reviewDays ApiOutcome.err =
      PlanResponse.ok ⟨PlanPayload.fallback p, some w⟩) ∧
    (∃ q w, generateTestPaperHandler parse (some fs) targetScore questionCount questionType
        ApiOutcome.err =
      PaperResponse.ok ⟨PaperPayload.fallback q, some w⟩) ∧
    (generateStudyPlanHandler parse (some fs) targetScore reviewDays (ApiOutcome.ok s) =
      PlanResponse.ok ⟨PlanPayload.fromModel (extractStructured parse s), none⟩) ∧
    (generateTestPaperHandler parse (some fs) targetScore questionCount questionType
        (ApiOutcome.ok s) =
      PaperResponse.ok ⟨PaperPayload.fromModel (extractStructured parse s), none⟩) := by
  have hne : fs.isEmpty = false := by
    cases fs
    · exact absurd rfl hfs
    · rfl
  refine ⟨?_, ?_, ?_, ?_⟩
  · rw [plan_handler_unfold parse fs targetScore reviewDays ApiOutcome.err hne]
    rcases hg : generateFallbackStudyPlan fs targetScore reviewDays with e | p
    · exact ⟨fallbackStudyPlanCore false 7, "生成失败，使用备用方案", rfl⟩
    · exact ⟨p, "API调用失败，使用备用方案生成复习计划", rfl⟩
  · rw [paper_handler_unfold parse fs targetScore questionCount questionType ApiOutcome.err hne]
    rcases hg : generateFallbackTestPaper fs targetScore questionCount questionType with e | q
    · exact ⟨fallbackTestPaperCore false, "生成失败，使用备用方案", rfl⟩
    · exact ⟨q, "API调用失败，使用备用方案生成模拟卷", rfl⟩
  · rw [plan_handler_unfold parse fs targetScore reviewDays (ApiOutcome.ok s) hne]
  · rw [paper_handler_unfold parse fs targetScore questionCount questionType
      (ApiOutcome.ok s) hne]

/-- Closed instance of `handlers_fallback_policy_c7_amended` at a failing
inference call. -/
theorem handlers_fallback_policy_c7_amended_witness :
    ∃ p w, generateStudyPlanHandler parseNone (some [⟨some "a.txt"⟩]) 85 7 ApiOutcome.err =
      PlanResponse.ok ⟨PlanPayload.fallback p, some w⟩ :=
  (handlers_fallback_policy_c7_amended parseNone [⟨some "a.txt"⟩] 85 7 3 "all" "x"
    (by decide)).1

/-- C1: for both generation handlers, a bad-request failure occurs exactly
when `files` is absent or empty; otherwise the handler returns a 200 body;
an inference failure yields a 200 body with fallback content plus a
warning; and under the modelled internal error (the inner fallback call
throwing on a file without a string name) the study-plan handler delivers
the fallback plan of `generateFallbackStudyPlan([], 85, 7)` and the
test-paper handler the fallback paper of
`generateFallbackTestPaper([], 85, 3, "all")`, each with a warning. -/
theorem handlers_error_policy_c1 (parse : String → Option JsonVal)
    (files : Option (List JFile)) (targetScore reviewDays questionCount : Int)
    (questionType : String) (api : ApiOutcome) :
    ((∃ e, generateStudyPlanHandler parse files targetScore reviewDays api =
        PlanResponse.badRequest e) ↔ files = none ∨ files = some []) ∧
    ((∃ e, generateTestPaperHandler parse files targetScore questionCount questionType api =
        PaperResponse.badRequest e) ↔ files = none ∨ files = some []) ∧
    (∀ fs, files = some fs → fs ≠ [] →
      (∃ b, generateStudyPlanHandler parse files targetScore reviewDays api =
        PlanResponse.ok b) ∧
      (∃ b, generateTestPaperHandler parse files targetScore questionCount questionType api =
        PaperResponse.ok b)) ∧
    (∀ fs, files = some fs → fs ≠ [] → api = ApiOutcome.err →
      (∃ p w, generateStudyPlanHandler parse files targetScore reviewDays api =
        PlanResponse.ok ⟨PlanPayload.fallback p, some w⟩) ∧
      (∃ q w, generateTestPaperHandler parse files targetScore questionCount questionType api =
        PaperResponse.ok ⟨PaperPayload.fallback q, some w⟩)) ∧
    (∀ fs, files = some fs → fs ≠ [] → api = ApiOutcome.err →
      someIsMath fs = Except.error () →
      (generateStudyPlanHandler parse files targetScore reviewDays api =
          PlanResponse.ok ⟨PlanPayload.fallback (fallbackStudyPlanCore false 7),
            some "生成失败，使用备用方案"⟩ ∧
        generateFallbackStudyPlan [] 85 7 = Except.ok (fallbackStudyPlanCore false 7)) ∧
      (generateTestPaperHandler parse files targetScore questionCount questionType api =
          PaperResponse.ok ⟨PaperPayload.fallback (fallbackTestPaperCore false),
            some "生成失败，使用备用方案"⟩ ∧
        generateFallbackTestPaper [] 85 3 "all" = Except.ok (fallbackTestPaperCore false))) := by
  refine ⟨?_, ?_, ?_, ?_, ?_⟩
  · constructor
    · rintro ⟨e, he⟩
      rcases files with _ | fs
      · exact Or.inl rfl
      · rcases hfs : fs with _ | ⟨f, rest⟩
        · exact Or.inr rfl
        · subst hfs
          rw [plan_handler_unfold parse (f :: rest) targetScore reviewDays api rfl] at he
          rcases api with s | _
          · cases he
          · rcases hg : generateFallbackStudyPlan (f :: rest) targetScore reviewDays
              with e' | p <;> rw [hg] at he <;> cases he
    · rintro (rfl | rfl)
      · exact ⟨"没有文件内容", rfl⟩
      · exact ⟨"没有文件内容", rfl⟩
  · constructor
    · rintro ⟨e, he⟩
      rcases files with _ | fs
      · exact Or.inl rfl
      · rcases hfs : fs with _ | ⟨f, rest⟩
        · exact Or.inr rfl
        · subst hfs
          rw [paper_handler_unfold parse (f :: rest) targetScore questionCount questionType
            api rfl] at he
          rcases api with s | _
          · cases he
          · rcases hg : generateFallbackTestPaper (f :: rest) targetScore questionCount
              questionType with e' | p <;> rw [hg] at he <;> cases he
    · rintro (rfl | rfl)
      · exact ⟨"没有文件内容", rfl⟩
      · exact ⟨"没有文件内容", rfl⟩
  · rintro fs rfl hfs
    have hne : fs.isEmpty = false := by
      cases fs
      · exact absurd rfl hfs
      · rfl
    constructor
    · rw [plan_handler_unfold parse fs targetScore reviewDays api hne]
      rcases api with s | _
      · exact ⟨_, rfl⟩
      · rcases hg : generateFallbackStudyPlan fs targetScore reviewDays with e | p <;>
          exact ⟨_, rfl⟩
    · rw [paper_handler_unfold parse fs targetScore questionCount questionType api hne]
      rcases api with s | _
      · exact ⟨_, rfl⟩
      · rcases hg : generateFallbackTestPaper fs targetScore questionCount questionType
          with e | p <;> exact ⟨_, rfl⟩
  · rintro fs rfl hfs rfl
    have hne : fs.isEmpty = false := by
      cases fs
      · exact absurd rfl hfs
      · rfl
    constructor
    · rw [plan_handler_unfold parse fs targetScore reviewDays ApiOutcome.err hne]
      rcases hg : generateFallbackStudyPlan fs targetScore reviewDays with e | p
      · exact ⟨fallbackStudyPlanCore false 7, "生成失败，使用备用方案", rfl⟩
      · exact ⟨p, "API调用失败，使用备用方案生成复习计划", rfl⟩
    · rw [paper_handler_unfold parse fs targetScore questionCount questionType
        ApiOutcome.err hne]
      rcases hg : generateFallbackTestPaper fs targetScore questionCount questionType
        with e | q
      · exact ⟨fallbackTestPaperCore false, "生成失败，使用备用方案", rfl⟩
      · exact ⟨q, "API调用失败，使用备用方案生成模拟卷", rfl⟩
  · rintro fs rfl hfs rfl herr
    have hne : fs.isEmpty = false := by
      cases fs
      · exact absurd rfl hfs
      · rfl
    have hgplan : generateFallbackStudyPlan fs targetScore reviewDays = Except.error () := by
      rw [generateFallbackStudyPlan, herr]
      rfl
    have hgpaper : generateFallbackTestPaper fs targetScore questionCount questionType =
        Except.error () := by
      rw [generateFallbackTestPaper, herr]
      rfl
    constructor
    · refine ⟨?_, rfl⟩
      rw [plan_handler_unfold parse fs targetScore reviewDays ApiOutcome.err hne, hgplan]
    · refine ⟨?_, rfl⟩
      rw [paper_handler_unfold parse fs targetScore questionCount questionType
        ApiOutcome.err hne, hgpaper]

/-- Closed instance of `handlers_error_policy_c1`: an absent `files`
property is rejected as a bad request. -/
theorem handlers_error_policy_c1_witness :
    ∃ e, generateStudyPlanHandler parseNone none 85 7 ApiOutcome.err =
      PlanResponse.badRequest e :=
  (handlers_error_policy_c1 parseNone none 85 7 3 "all" ApiOutcome.err).1.mpr (Or.inl rfl)

end JiaoWoTong
